import Mathlib

/-!
Shallow embedding of `caniusepython3/pypi.py` and proofs about the
classification algorithm, the lookup fallback, the override store and the
name normalizer.
-/

namespace Ciu

/-- Model of the Python exception values that the modelled code paths can
raise.  `keyError` models `KeyError` from dictionary indexing,
`attributeError` models calling `.group(0)` on a failed regex match (`None`),
`invalidVersion` models `packaging.version.InvalidVersion`,
`invalidWheelFilename` models the `distlib` exception on a bad wheel file
name, `jsonError` models `request.json()` failing to decode, and
`transportError` models a raised `requests` transport exception.
`invalidSpecifier` is the error name the specification uses for a malformed
project name; it is included so that statements can distinguish it from the
error the code actually raises. -/
inductive PyErr where
  | keyError
  | attributeError
  | invalidVersion
  | invalidWheelFilename
  | jsonError
  | transportError
  | invalidSpecifier
deriving DecidableEq

/-- The four-variant enumeration `CanIUsePython3` from `caniusepython3/pypi.py`. -/
inductive CanIUsePython3 where
  | unknown
  | python2_only
  | python3_supported
  | python3_only
deriving DecidableEq

/-- Model of `CanIUsePython3.__bool__`: false exactly on `python2_only` and
`unknown`. -/
def CanIUsePython3.toBool : CanIUsePython3 → Bool
  | .unknown => false
  | .python2_only => false
  | .python3_supported => true
  | .python3_only => true

/-- One artifact descriptor of a `releases` entry: the two dictionary fields
the code reads, `dl['filename']` and `dl['packagetype']`. -/
structure Artifact where
  filename : String
  packagetype : String
deriving DecidableEq

/-- Model of `response["info"]`: the only field the code reads is
`classifiers`; `none` models the `classifiers` key being absent (indexing
then raises `KeyError`). -/
structure Info where
  classifiers : Option (List String)
deriving DecidableEq

/-- Model of a registry JSON response restricted to the fields read by
`_classifiy`.  `info = none` models a payload without an `"info"` key, and
`releases = none` models a payload without a `"releases"` key (read with
`response.get('releases')`, which returns `None`).  A `releases` dictionary
is an association list in document order, matching Python dictionary
iteration order. -/
structure Response where
  info : Option Info
  releases : Option (List (String × List Artifact))
deriving DecidableEq

/-- Model of Python `s.startswith(p)`. -/
def startswith (s p : String) : Bool :=
  p.data.isPrefixOf s.data

/-- Model of Python `str.split` with a one-character separator, keeping empty
fragments, as `"1.01".split('.')` does. -/
def splitChars (sep : Char) : List Char → List (List Char)
  | [] => [[]]
  | c :: rest =>
    if c = sep then [] :: splitChars sep rest
    else
      match splitChars sep rest with
      | [] => [[c]]
      | g :: gs => (c :: g) :: gs

/-- Numeric value of a string of decimal digits. -/
def digitsToNat (l : List Char) : Nat :=
  l.foldl (fun acc c => acc * 10 + (c.toNat - 48)) 0

/-- Model of `packaging.version.parse` restricted to the fragment the code's
inputs exercise here: a purely numeric PEP 440 release segment `N(.N)*`,
parsed to its list of numeric components.  Any other string is rejected,
modelling `InvalidVersion`. -/
def parseRelease (s : String) : Option (List Nat) :=
  let segs := splitChars '.' s.data
  if segs.all (fun t => !t.isEmpty && t.all Char.isDigit) then
    some (segs.map digitsToNat)
  else none

/-- Model of `str(packaging.version.Version)` for a purely numeric release:
the normalized dotted form (leading zeros disappear because the numbers are
re-printed). -/
def relToString (l : List Nat) : String :=
  match l with
  | [] => ""
  | n :: rest => rest.foldl (fun acc m => acc ++ "." ++ toString m) (toString n)

/-- Lexicographic comparison of two numeric lists of equal length. -/
def ltAux : List Nat → List Nat → Bool
  | [], _ => false
  | _ :: _, [] => false
  | a :: as, b :: bs => Nat.blt a b || (a == b && ltAux as bs)

/-- Model of version comparison for numeric releases: PEP 440 compares
release tuples padded with zeros to equal length. -/
def relLt (a b : List Nat) : Bool :=
  let n := max a.length b.length
  ltAux (a ++ List.replicate (n - a.length) 0) (b ++ List.replicate (n - b.length) 0)

/-- Model of Python `max` over a non-empty sequence of parsed versions: keep
the first maximal element. -/
def maxRel (v : List Nat) (vs : List (List Nat)) : List Nat :=
  vs.foldl (fun acc y => if relLt acc y then y else acc) v

/-- Cartesian product of the dot-separated pyver, abi and arch components of
a wheel file name: model of `distlib.wheel.Wheel.tags`. -/
def tagsOf (py bi ar : List Char) : List (String × String × String) :=
  let pys := (splitChars '.' py).map (fun l => String.mk l)
  let bis := (splitChars '.' bi).map (fun l => String.mk l)
  let ars := (splitChars '.' ar).map (fun l => String.mk l)
  List.flatten (pys.map (fun p => List.flatten (bis.map (fun b => ars.map (fun a => (p, b, a))))))

/-- ASCII model of the regex class `\w` of distlib's wheel-name patterns:
letters, digits, underscore, by code point. -/
def isWordChar (c : Char) : Bool :=
  (65 ≤ c.toNat && c.toNat ≤ 90) || (97 ≤ c.toNat && c.toNat ≤ 122) ||
    (48 ≤ c.toNat && c.toNat ≤ 57) || c.toNat == 95

/-- One dot-separated component of the `py` group of distlib's
`FILENAME_RE`: it must match `\w+\d+`, that is, word characters ending in a
digit, at least two characters long. -/
def isPyComponent (t : List Char) : Bool :=
  2 ≤ t.length && t.all isWordChar &&
    (match t.getLast? with
     | some c => c.isDigit
     | none => false)

/-- The `py` group of `FILENAME_RE`: `\w+\d+(\.\w+\d+)*`. -/
def isPyGroup (l : List Char) : Bool :=
  (splitChars '.' l).all isPyComponent

/-- The `ar` group of `FILENAME_RE`: `\w+(\.\w+)*`, dot-separated non-empty
word components. -/
def isArchGroup (l : List Char) : Bool :=
  (splitChars '.' l).all (fun t => !t.isEmpty && t.all isWordChar)

/-- Model of distlib's `NAME_VERSION_RE`, matched against the whole file
name first by `Wheel.__init__`: `name-version(-build)?`, anchored at both
ends, where the name is any non-empty dash-free text and the version (and
build) start with a digit. -/
def nameVersionMatch (cs : List Char) : Bool :=
  match splitChars '-' cs with
  | [nm, v0 :: _] => !nm.isEmpty && v0.isDigit
  | [nm, v0 :: _, b0 :: _] => !nm.isEmpty && v0.isDigit && b0.isDigit
  | _ => false

/-- Model of matching distlib's `FILENAME_RE` against the file name with the
(case-insensitive) `.whl` suffix already removed:
`name-version(-build)?-pyver-abi-arch`, where the version and build start
with a digit, the pyver group is dot-separated `\w+\d+` components, the abi
group is a single `\w+`, and the arch group is dot-separated `\w+`
components.  On success the three tag groups are returned. -/
def filenameMatch (base : List Char) :
    Option (List Char × List Char × List Char) :=
  match splitChars '-' base with
  | [nm, v0 :: _, py, bi, ar] =>
    if !nm.isEmpty && v0.isDigit && isPyGroup py && !bi.isEmpty && bi.all isWordChar
        && isArchGroup ar then
      some (py, bi, ar)
    else none
  | [nm, v0 :: _, b0 :: _, py, bi, ar] =>
    if !nm.isEmpty && v0.isDigit && b0.isDigit && isPyGroup py && !bi.isEmpty
        && bi.all isWordChar && isArchGroup ar then
      some (py, bi, ar)
    else none
  | _ => none

/-- Modelled from the environment: distlib's module constant
`PYVER = 'py%s%s' % sys.version_info[:2]`, the running interpreter's
major/minor tag, used as the default pyver of a wheel whose file name has
the bare `name-version` form.  Its concrete value depends on the
interpreter; it is fixed here to that of a CPython 3.6 run, and no theorem
in this file depends on the choice. -/
def sysPyver : String := "py36"

/-- Model of `distlib.wheel.Wheel(filename)` followed by reading `.tags`.
`Wheel.__init__` first tries `NAME_VERSION_RE` on the whole name; on a match
the wheel keeps the constructor's default tags `(PYVER, 'none', 'any')`.
Otherwise the name must match `FILENAME_RE` (with its case-insensitive
`.whl` suffix); on a match the tags are the cartesian product of the
dot-separated pyver, abi and arch components, and otherwise
`DistlibException` is raised. -/
def parseWheel (filename : String) : Except PyErr (List (String × String × String)) :=
  let cs := filename.data
  if nameVersionMatch cs then
    .ok [(sysPyver, "none", "any")]
  else if ((cs.drop (cs.length - 4)).map Char.toLower) = ('.' :: 'w' :: 'h' :: 'l' :: []) then
    match filenameMatch (cs.take (cs.length - 4)) with
    | some (py, bi, ar) => .ok (tagsOf py bi ar)
    | none => .error .invalidWheelFilename
  else .error .invalidWheelFilename

/-- Model of the wheel-scanning loop of `_classifiy`: walk the wheel file
names, parse each, update the `py2` and `py3` flags from the tag pyvers, and
stop early (`break`) once both flags are set.  A file name that fails to
parse before the loop breaks raises. -/
def scanWheels : List String → Bool → Bool → Except PyErr (Bool × Bool)
  | [], py2, py3 => .ok (py2, py3)
  | w :: ws, py2, py3 =>
    match parseWheel w with
    | .error e => .error e
    | .ok tags =>
      let py2' := py2 || tags.any (fun t => startswith t.1 "py2" || startswith t.1 "cp2")
      let py3' := py3 || tags.any (fun t => startswith t.1 "py3" || startswith t.1 "cp3")
      if py2' && py3' then .ok (py2', py3')
      else scanWheels ws py2' py3'

/-- Model of lines 123 to 130 of `pypi.py` on a non-empty `releases` mapping:
parse every version key, take the maximum, print its normalized form, and
index `releases` with it.  Indexing fails with `KeyError` when the normalized
form differs from the stored key. -/
def latestArtifacts : List (String × List Artifact) → Except PyErr (List Artifact)
  | [] => .error .keyError
  | (k0, a0) :: rest =>
    match parseRelease k0, (rest.map Prod.fst).mapM parseRelease with
    | some v0, some vs =>
      match ((k0, a0) :: rest).find? (fun p => p.1 == relToString (maxRel v0 vs)) with
      | some p => .ok p.2
      | none => .error .keyError
    | _, _ => .error .invalidVersion

/-- Final resolution block of `_classifiy` (lines 148 to 156): combine the
`py2` and `py3` flags into a support level. -/
def pyResolve (py2 py3 : Bool) : CanIUsePython3 :=
  if py3 && py2 then .python3_supported
  else if py3 then .python3_only
  else if py2 then .python2_only
  else .unknown

/-- Classifier branch of `_classifiy` (lines 100 to 116 plus the final
block): the exact `3 :: Only` and `2 :: Only` membership tests come first,
then the major-version scans. -/
def classifyViaClassifiers (cs : List String) : CanIUsePython3 :=
  if "Programming Language :: Python :: 3 :: Only" ∈ cs then .python3_only
  else if "Programming Language :: Python :: 2 :: Only" ∈ cs then .python2_only
  else
    pyResolve
      (cs.any (fun c => startswith c "Programming Language :: Python :: 2"))
      (cs.any (fun c => startswith c "Programming Language :: Python :: 3"))

/-- Wheel branch of `_classifiy` (lines 117 to 145 plus the final block). -/
def classifyViaReleases (releases : Option (List (String × List Artifact))) :
    Except PyErr CanIUsePython3 :=
  match releases with
  | none => .ok .unknown
  | some [] => .ok .unknown
  | some rels =>
    match latestArtifacts rels with
    | .error e => .error e
    | .ok dls =>
      let wheel_names :=
        (dls.filter (fun d => d.packagetype == "bdist_wheel")).map Artifact.filename
      if wheel_names.isEmpty then .ok .unknown
      else
        match scanWheels wheel_names false false with
        | .error e => .error e
        | .ok (py2, py3) => .ok (pyResolve py2 py3)

/-- Model of `_classifiy(project_name, response)` (lines 84 to 156 of
`caniusepython3/pypi.py`).  Dictionary indexing `response["info"]` and then
`["classifiers"]` raises `KeyError` when the key is absent; otherwise the
classifier branch is taken when any classifier starts with
`"Programming Language :: Python :: "`, and the wheel branch otherwise. -/
def _classifiy (project_name : String) (response : Response) :
    Except PyErr CanIUsePython3 :=
  match response.info with
  | none => .error .keyError
  | some info =>
    match info.classifiers with
    | none => .error .keyError
    | some cs =>
      if cs.any (fun c => startswith c "Programming Language :: Python :: ") then
        .ok (classifyViaClassifiers cs)
      else
        classifyViaReleases response.releases

/-- URL built by `supports_py3` via `"https://pypi.org/pypi/{}/json".format`. -/
def pypiUrl (project_name : String) : String :=
  "https://pypi.org/pypi/" ++ project_name ++ "/json"

/-- Model of `supports_py3(project_name)` (lines 164 to 176).  The HTTP
session is a function from URL to a pair of status code and optional decoded
JSON body (`none` models an undecodable body, on which `request.json()`
raises).  The result carries the warning messages logged on the error path
alongside the classification, so the optimistic fallback's `log.warning` is
visible in the returned value. -/
def supports_py3 (project_name : String) (session : String → Nat × Option Response) :
    Except PyErr (List String × CanIUsePython3) :=
  let request := session (pypiUrl project_name)
  if 400 ≤ request.1 then
    .ok (["problem fetching " ++ project_name ++ ", assuming ported ("
            ++ toString request.1 ++ ")"],
      .python3_supported)
  else
    match request.2 with
    | none => .error .jsonError
    | some response =>
      match _classifiy project_name response with
      | .error e => .error e
      | .ok v => .ok ([], v)

/-- Separator class of `packaging.utils.canonicalize_name`: the characters
collapsed by `re.sub(r"[-_.]+", "-", name)`. -/
def isSep (c : Char) : Bool := c == '-' || c == '_' || c == '.'

/-- Replace every run of separators by a single dash and lower-case everything
else: the character-level body of `canonicalize_name`. -/
def squashAux : Bool → List Char → List Char
  | _, [] => []
  | prevSep, c :: rest =>
    if isSep c then
      if prevSep then squashAux true rest else '-' :: squashAux true rest
    else Char.toLower c :: squashAux false rest

/-- Model of `packaging.utils.canonicalize_name`:
`re.sub(r"[-_.]+", "-", name).lower()`. -/
def canonicalize_name (s : String) : String := String.mk (squashAux false s.data)

/-- Model of `_manual_overrides` (lines 64 to 81) with the network read made
explicit: `fetched` is the outcome of `requests.get` on the overrides URL: an
exception value when the transport raised, otherwise the status code and the
keys of the decoded JSON object.  `bundled` is the key set of the bundled
`overrides.json`.  The transport outcome is bound before the status test,
exactly as `request = requests.get(...)` is, so a raised transport error
propagates. -/
def _manual_overrides (fetched : Except PyErr (Nat × List String))
    (bundled : List String) : Except PyErr (List String) :=
  match fetched with
  | .error e => .error e
  | .ok (status_code, keys) =>
    if status_code = 200 then .ok (keys.map canonicalize_name)
    else .ok (bundled.map canonicalize_name)

/-- ASCII model of the character class of
`PROJECT_NAME = re.compile(r'[\w.-]+')`: letters, digits, underscore, dot,
dash, by code point. -/
def isNameChar (c : Char) : Bool :=
  (65 ≤ c.toNat && c.toNat ≤ 90) || (97 ≤ c.toNat && c.toNat ≤ 122) ||
    (48 ≤ c.toNat && c.toNat ≤ 57) || c.toNat == 95 || c.toNat == 46 || c.toNat == 45

/-- Model of `just_name` (lines 49 to 51): `PROJECT_NAME.match(...)` takes
the longest matching prefix of the input; when that prefix is empty the match
object is `None` and `.group(0)` raises `AttributeError`; otherwise the match
is lower-cased. -/
def just_name (supposed_name : String) : Except PyErr String :=
  let m := supposed_name.data.takeWhile isNameChar
  if m.isEmpty then .error .attributeError
  else .ok (String.mk (m.map Char.toLower))

/-- Payloads on which `_classifiy` is total: `info.classifiers` present, and,
if the wheel branch is taken, the version keys parse, the normalized maximum
indexes the mapping, and every wheel file name of the selected release
parses. -/
def wellFormedResponse (r : Response) : Bool :=
  match r.info with
  | none => false
  | some info =>
    match info.classifiers with
    | none => false
    | some cs =>
      cs.any (fun c => startswith c "Programming Language :: Python :: ") ||
        match r.releases with
        | none => true
        | some [] => true
        | some rels =>
          match latestArtifacts rels with
          | .error _ => false
          | .ok dls =>
            ((dls.filter (fun d => d.packagetype == "bdist_wheel")).map
                Artifact.filename).all
              (fun w => (parseWheel w).isOk)

/-- C2: for every classifier list containing the exact string
`"Programming Language :: Python :: 3 :: Only"`, `_classifiy` returns
`python3_only`, regardless of any other entries in the list and regardless
of the releases content. -/
theorem c2_three_only (name : String) (cs : List String)
    (rel : Option (List (String × List Artifact)))
    (h : "Programming Language :: Python :: 3 :: Only" ∈ cs) :
    _classifiy name ⟨some ⟨some cs⟩, rel⟩ = .ok .python3_only := by
  have hany : cs.any (fun c => startswith c "Programming Language :: Python :: ") = true :=
    List.any_eq_true.mpr ⟨_, h, by decide⟩
  simp [_classifiy, classifyViaClassifiers, hany, h]

/-- Witness for `c2_three_only` at a concrete classifier list that also
contains the `2 :: Only` entry. -/
theorem c2_three_only_witness :
    _classifiy "pkg"
      ⟨some ⟨some ["Programming Language :: Python :: 2 :: Only",
        "Programming Language :: Python :: 3 :: Only"]⟩, none⟩ = .ok .python3_only :=
  c2_three_only "pkg" _ none (by decide)

/-- C10: when at least one classifier of the `Programming Language :: Python
:: ` family is present, the result of `_classifiy` does not depend on the
releases field; in particular a list whose only such classifier names no
major version (`Implementation :: CPython`) yields `unknown` even when the
latest release carries a Python-3-tagged wheel. -/
theorem c10_classifier_shadowing :
    (∀ (name : String) (cs : List String)
        (r1 r2 : Option (List (String × List Artifact))),
        cs.any (fun c => startswith c "Programming Language :: Python :: ") = true →
        _classifiy name ⟨some ⟨some cs⟩, r1⟩ = _classifiy name ⟨some ⟨some cs⟩, r2⟩) ∧
      _classifiy "pkg"
        ⟨some ⟨some ["Programming Language :: Python :: Implementation :: CPython"]⟩,
          some [("1.0", [⟨"pkg-1.0-py3-none-any.whl", "bdist_wheel"⟩])]⟩ = .ok .unknown := by
  constructor
  · intro name cs r1 r2 h
    simp [_classifiy, h]
  · rfl

/-- Witness for the quantified half of `c10_classifier_shadowing`. -/
theorem c10_classifier_shadowing_witness :
    _classifiy "pkg" ⟨some ⟨some ["Programming Language :: Python :: 3 :: Only"]⟩, none⟩ =
      _classifiy "pkg" ⟨some ⟨some ["Programming Language :: Python :: 3 :: Only"]⟩,
        some [("0.1", [])]⟩ :=
  c10_classifier_shadowing.1 "pkg" _ none _ (by decide)

/-- C4: with no Python classifier, `_classifiy` inspects only the release
with the highest version key under numeric (semantic) comparison.  The first
conjunct is the concrete example of the claim; the second shows the result
ignores the artifacts of the non-maximal release entirely; the third picks
`"10.0"` over `"9.0"`, which lexicographic string comparison would order the
other way around. -/
theorem c4_version_selection :
    _classifiy "pkg"
      ⟨some ⟨some []⟩,
        some [("2.0", [⟨"pkg-2.0-cp3-cp38-linux_x86_64.whl", "bdist_wheel"⟩]),
              ("1.0", [⟨"pkg-1.0-cp2-cp27-linux_x86_64.whl", "bdist_wheel"⟩])]⟩
      = .ok .python3_only ∧
    (∀ arts : List Artifact,
      _classifiy "pkg"
        ⟨some ⟨some []⟩,
          some [("2.0", [⟨"pkg-2.0-cp3-cp38-linux_x86_64.whl", "bdist_wheel"⟩]),
                ("1.0", arts)]⟩ = .ok .python3_only) ∧
    _classifiy "pkg"
      ⟨some ⟨some []⟩,
        some [("9.0", [⟨"pkg-9.0-cp2-cp27-linux_x86_64.whl", "bdist_wheel"⟩]),
              ("10.0", [⟨"pkg-10.0-cp3-cp38-linux_x86_64.whl", "bdist_wheel"⟩])]⟩
      = .ok .python3_only :=
  ⟨rfl, fun _ => rfl, rfl⟩

/-- C5: with no Python classifier, `_classifiy` returns `unknown` when
`releases` is absent or empty, and also when the highest release holds no
artifact whose `packagetype` is `bdist_wheel`. -/
theorem c5_unknown_cases (name : String) (cs : List String)
    (h : cs.any (fun c => startswith c "Programming Language :: Python :: ") = false) :
    _classifiy name ⟨some ⟨some cs⟩, none⟩ = .ok .unknown ∧
    _classifiy name ⟨some ⟨some cs⟩, some []⟩ = .ok .unknown ∧
    (∀ (rels : List (String × List Artifact)) (dls : List Artifact),
      latestArtifacts rels = .ok dls →
      dls.all (fun d => !(d.packagetype == "bdist_wheel")) = true →
      _classifiy name ⟨some ⟨some cs⟩, some rels⟩ = .ok .unknown) := by
  refine ⟨by simp [_classifiy, h, classifyViaReleases],
    by simp [_classifiy, h, classifyViaReleases], ?_⟩
  intro rels dls hla hall
  cases rels with
  | nil => simp [latestArtifacts] at hla
  | cons r rest =>
    have hfilter : dls.filter (fun d => d.packagetype == "bdist_wheel") = [] := by
      rw [List.filter_eq_nil_iff]
      intro a ha
      simpa using (List.all_eq_true.mp hall) a ha
    simp [_classifiy, h, classifyViaReleases, hla, hfilter]

/-- Witness for `c5_unknown_cases`: empty classifiers and a single release
containing only an sdist artifact. -/
theorem c5_unknown_cases_witness :
    _classifiy "pkg" ⟨some ⟨some []⟩,
      some [("1.0", [⟨"pkg-1.0.tar.gz", "sdist"⟩])]⟩ = .ok .unknown :=
  (c5_unknown_cases "pkg" [] (by decide)).2.2
    [("1.0", [⟨"pkg-1.0.tar.gz", "sdist"⟩])] [⟨"pkg-1.0.tar.gz", "sdist"⟩] rfl (by decide)

/-- C6: whenever the registry response status is at least 400, `supports_py3`
returns `python3_supported` (the optimistic fallback) together with the
logged warning, and raises nothing. -/
theorem c6_error_status_optimistic (name : String)
    (session : String → Nat × Option Response)
    (h : 400 ≤ (session (pypiUrl name)).1) :
    supports_py3 name session =
      .ok (["problem fetching " ++ name ++ ", assuming ported ("
              ++ toString (session (pypiUrl name)).1 ++ ")"],
        .python3_supported) := by
  simp [supports_py3, h]

/-- Witness for `c6_error_status_optimistic` on a session answering 404. -/
theorem c6_error_status_optimistic_witness :
    supports_py3 "pkg" (fun _ => ((404 : Nat), (none : Option Response))) =
      .ok (["problem fetching pkg, assuming ported (404)"], .python3_supported) := by
  rw [c6_error_status_optimistic "pkg" _ (by decide)]
  rfl

/-- C7 counterexample: a raised transport error during the override fetch
propagates out of `_manual_overrides` instead of degrading to the bundled
fallback document. -/
theorem c7_counterexample :
    _manual_overrides (.error .transportError) ["six"] = .error .transportError := rfl

/-- C7 amended: on any fetch that returns (rather than raises) with a
non-200 status, `_manual_overrides` falls back to the bundled static
overrides and returns a result. -/
theorem c7_amended_fallback (status_code : Nat) (keys bundled : List String)
    (h : status_code ≠ 200) :
    _manual_overrides (.ok (status_code, keys)) bundled =
      .ok (bundled.map canonicalize_name) := by
  simp [_manual_overrides, h]

/-- Witness for `c7_amended_fallback` at status 404. -/
theorem c7_amended_fallback_witness :
    _manual_overrides (.ok (404, ["remote_key"])) ["Six"] =
      .ok (["Six"].map canonicalize_name) :=
  c7_amended_fallback 404 ["remote_key"] ["Six"] (by decide)

/-- C1 counterexample: `_classifiy` is not total on malformed registry
payloads.  A payload without `info`, a payload whose `info` lacks
`classifiers`, a release key (`"1.01"`) whose normalized version string
(`"1.1"`) differs from the key, and a wheel file name matching neither of
distlib's patterns (`"bad.whl"`, or `"pkg-1.0-xyz-none-any.whl"` whose
pyver group `xyz` fails the `\w+\d+` shape) all raise instead of yielding
`unknown`. -/
theorem c1_counterexample :
    _classifiy "pkg" ⟨none, none⟩ = .error .keyError ∧
    _classifiy "pkg" ⟨some ⟨none⟩, none⟩ = .error .keyError ∧
    _classifiy "pkg" ⟨some ⟨some []⟩, some [("1.01", [⟨"pkg-1.01.tar.gz", "sdist"⟩])]⟩
      = .error .keyError ∧
    _classifiy "pkg" ⟨some ⟨some []⟩, some [("1.0", [⟨"bad.whl", "bdist_wheel"⟩])]⟩
      = .error .invalidWheelFilename ∧
    _classifiy "pkg" ⟨some ⟨some []⟩,
        some [("1.0", [⟨"pkg-1.0-xyz-none-any.whl", "bdist_wheel"⟩])]⟩
      = .error .invalidWheelFilename :=
  ⟨rfl, rfl, rfl, rfl, rfl⟩

/-- Classifier list used to refute C3 as literally stated: it contains a
non-Only `Python :: 2` entry and a non-Only `Python :: 3` entry, but also a
separate `3 :: Only` entry. -/
def onlyShadowList : List String :=
  ["Programming Language :: Python :: 2.7",
   "Programming Language :: Python :: 3.6",
   "Programming Language :: Python :: 3 :: Only"]

/-- C3 counterexample: `onlyShadowList` satisfies the claim's hypotheses (a
`Python :: 2`-prefixed and a `Python :: 3`-prefixed entry, neither of which
is an `:: Only` entry), yet `_classifiy` returns `python3_only`, not
`python3_supported`, because a third entry is the exact `3 :: Only` string. -/
theorem c3_counterexample :
    ("Programming Language :: Python :: 2.7" ∈ onlyShadowList ∧
      startswith "Programming Language :: Python :: 2.7"
        "Programming Language :: Python :: 2" = true ∧
      "Programming Language :: Python :: 2.7" ≠
        "Programming Language :: Python :: 2 :: Only" ∧
      "Programming Language :: Python :: 2.7" ≠
        "Programming Language :: Python :: 3 :: Only") ∧
    ("Programming Language :: Python :: 3.6" ∈ onlyShadowList ∧
      startswith "Programming Language :: Python :: 3.6"
        "Programming Language :: Python :: 3" = true ∧
      "Programming Language :: Python :: 3.6" ≠
        "Programming Language :: Python :: 2 :: Only" ∧
      "Programming Language :: Python :: 3.6" ≠
        "Programming Language :: Python :: 3 :: Only") ∧
    _classifiy "pkg" ⟨some ⟨some onlyShadowList⟩, none⟩ = .ok .python3_only ∧
    CanIUsePython3.python3_only ≠ CanIUsePython3.python3_supported :=
  ⟨⟨by decide, by decide, by decide, by decide⟩,
    ⟨by decide, by decide, by decide, by decide⟩, rfl, by decide⟩

/-- C3 amended: for every classifier list containing an entry starting with
`Programming Language :: Python :: 2` and an entry starting with
`Programming Language :: Python :: 3`, and containing neither exact
`:: Only` string anywhere in the list, `_classifiy` returns
`python3_supported` regardless of the releases. -/
theorem c3_amended (name : String) (cs : List String)
    (rel : Option (List (String × List Artifact)))
    (h2 : ∃ c ∈ cs, startswith c "Programming Language :: Python :: 2" = true)
    (h3 : ∃ c ∈ cs, startswith c "Programming Language :: Python :: 3" = true)
    (hn3 : "Programming Language :: Python :: 3 :: Only" ∉ cs)
    (hn2 : "Programming Language :: Python :: 2 :: Only" ∉ cs) :
    _classifiy name ⟨some ⟨some cs⟩, rel⟩ = .ok .python3_supported := by
  obtain ⟨c2, hc2m, hc2⟩ := h2
  obtain ⟨c3, hc3m, hc3⟩ := h3
  have hany : cs.any (fun c => startswith c "Programming Language :: Python :: ") = true := by
    refine List.any_eq_true.mpr ⟨c2, hc2m, ?_⟩
    have hp : ("Programming Language :: Python :: ").data <+:
        ("Programming Language :: Python :: 2").data := by decide
    exact List.isPrefixOf_iff_prefix.mpr
      (hp.trans (List.isPrefixOf_iff_prefix.mp hc2))
  have hpy2 : cs.any (fun c => startswith c "Programming Language :: Python :: 2") = true :=
    List.any_eq_true.mpr ⟨c2, hc2m, hc2⟩
  have hpy3 : cs.any (fun c => startswith c "Programming Language :: Python :: 3") = true :=
    List.any_eq_true.mpr ⟨c3, hc3m, hc3⟩
  simp [_classifiy, hany, classifyViaClassifiers, hn3, hn2, hpy2, hpy3, pyResolve]

/-- Witness for `c3_amended` at a two-entry classifier list. -/
theorem c3_amended_witness :
    _classifiy "pkg" ⟨some ⟨some ["Programming Language :: Python :: 2.7",
      "Programming Language :: Python :: 3.6"]⟩, none⟩ = .ok .python3_supported :=
  c3_amended "pkg" _ none
    ⟨"Programming Language :: Python :: 2.7", by decide, by decide⟩
    ⟨"Programming Language :: Python :: 3.6", by decide, by decide⟩
    (by decide) (by decide)

/-- A wheel list in which every file name parses is scanned without error. -/
theorem scanWheels_ok : ∀ (ws : List String) (a b : Bool),
    (∀ w ∈ ws, (parseWheel w).isOk = true) → ∃ p, scanWheels ws a b = .ok p
  | [], a, b, _ => ⟨(a, b), rfl⟩
  | w :: ws, a, b, h => by
    have hw := h w (List.mem_cons_self w ws)
    unfold scanWheels
    cases hpw : parseWheel w with
    | error e => rw [hpw] at hw; simp [Except.isOk, Except.toBool] at hw
    | ok tags =>
      simp only [hpw]
      split
      · exact ⟨_, rfl⟩
      · exact scanWheels_ok ws _ _ (fun x hx => h x (List.mem_cons_of_mem _ hx))

/-- C1 amended: `_classifiy` is a pure deterministic function, total on
well-formed payloads: whenever `wellFormedResponse` holds (the
`info.classifiers` field is present and, if the wheel branch is taken, the
version keys parse, the normalized maximum indexes the mapping and every
selected wheel file name matches one of distlib's two patterns), it returns
a support level without raising.  Bare `name-version` wheel file names such
as `pkg-1.0.whl` are well formed: they parse with the interpreter-default
tags and do not raise.  Malformed payloads raise instead of yielding
`unknown` (see the counterexample). -/
theorem c1_amended_total (name : String) (r : Response)
    (h : wellFormedResponse r = true) : ∃ v, _classifiy name r = .ok v := by
  obtain ⟨info, releases⟩ := r
  cases info with
  | none => simp [wellFormedResponse] at h
  | some i =>
    obtain ⟨cls⟩ := i
    cases cls with
    | none => simp [wellFormedResponse] at h
    | some cs =>
      by_cases hc : cs.any (fun c => startswith c "Programming Language :: Python :: ") = true
      · exact ⟨classifyViaClassifiers cs, by simp [_classifiy, hc]⟩
      · have hc' : cs.any (fun c => startswith c "Programming Language :: Python :: ") = false :=
          Bool.eq_false_iff.mpr hc
        cases releases with
        | none => exact ⟨.unknown, by simp [_classifiy, hc', classifyViaReleases]⟩
        | some rels =>
          cases rels with
          | nil => exact ⟨.unknown, by simp [_classifiy, hc', classifyViaReleases]⟩
          | cons r0 rest =>
            simp only [wellFormedResponse, hc', Bool.false_or] at h
            cases hla : latestArtifacts (r0 :: rest) with
            | error e => rw [hla] at h; simp at h
            | ok dls =>
              rw [hla] at h
              simp only [List.all_eq_true] at h
              by_cases hw : ((dls.filter (fun d => d.packagetype == "bdist_wheel")).map
                  Artifact.filename).isEmpty = true
              · exact ⟨.unknown, by simp [_classifiy, hc', classifyViaReleases, hla, hw]⟩
              · obtain ⟨p, hp⟩ := scanWheels_ok
                  ((dls.filter (fun d => d.packagetype == "bdist_wheel")).map Artifact.filename)
                  false false (fun w hwm => h w hwm)
                exact ⟨pyResolve p.1 p.2,
                  by simp [_classifiy, hc', classifyViaReleases, hla, hw, hp]⟩

/-- Witness for `c1_amended_total` at two concrete well-formed payloads
whose wheel branch is exercised: a full `FILENAME_RE`-shaped wheel name and
a bare `NAME_VERSION_RE`-shaped one (`pkg-1.0.whl`), which parses with the
interpreter-default tags instead of raising. -/
theorem c1_amended_total_witness :
    (wellFormedResponse ⟨some ⟨some []⟩,
        some [("1.0", [⟨"pkg-1.0-py2.py3-none-any.whl", "bdist_wheel"⟩])]⟩ = true ∧
      ∃ v, _classifiy "pkg" ⟨some ⟨some []⟩,
        some [("1.0", [⟨"pkg-1.0-py2.py3-none-any.whl", "bdist_wheel"⟩])]⟩ = .ok v) ∧
    (wellFormedResponse ⟨some ⟨some []⟩,
        some [("1.0", [⟨"pkg-1.0.whl", "bdist_wheel"⟩])]⟩ = true ∧
      ∃ v, _classifiy "pkg" ⟨some ⟨some []⟩,
        some [("1.0", [⟨"pkg-1.0.whl", "bdist_wheel"⟩])]⟩ = .ok v) :=
  ⟨⟨rfl, c1_amended_total "pkg" _ rfl⟩, ⟨rfl, c1_amended_total "pkg" _ rfl⟩⟩

/-- Round trip for `Char.ofNat` below the surrogate range. -/
theorem toNat_ofNat_valid {n : Nat} (h : n < 55296) : (Char.ofNat n).toNat = n := by
  rw [Char.ofNat, dif_pos (Or.inl h)]
  simp [Char.ofNatAux, Char.toNat, UInt32.toNat]

/-- Closed form for `Char.toLower`. -/
theorem toLower_eq (c : Char) :
    c.toLower = if c.toNat ≥ 65 ∧ c.toNat ≤ 90 then Char.ofNat (c.toNat + 32) else c := rfl

/-- Lower-casing is idempotent. -/
theorem toLower_idem (c : Char) : c.toLower.toLower = c.toLower := by
  by_cases h : c.toNat ≥ 65 ∧ c.toNat ≤ 90
  · have hn : c.toLower.toNat = c.toNat + 32 := by
      rw [toLower_eq, if_pos h]; exact toNat_ofNat_valid (by omega)
    rw [toLower_eq c.toLower, if_neg (by rw [hn]; omega)]
  · have h1 : c.toLower = c := by rw [toLower_eq, if_neg h]
    rw [h1]; exact h1

/-- The name-character class is stable under lower-casing. -/
theorem isNameChar_toLower {c : Char} (h : isNameChar c = true) :
    isNameChar c.toLower = true := by
  by_cases hu : c.toNat ≥ 65 ∧ c.toNat ≤ 90
  · have hn : c.toLower.toNat = c.toNat + 32 := by
      rw [toLower_eq, if_pos hu]; exact toNat_ofNat_valid (by omega)
    simp only [isNameChar, Bool.or_eq_true, Bool.and_eq_true, decide_eq_true_eq,
      Nat.beq_eq_true_eq] at h ⊢
    rw [hn]
    omega
  · have h1 : c.toLower = c := by rw [toLower_eq, if_neg hu]
    rw [h1]; exact h

/-- A list of name characters lower-cases to a list of name characters, so
`takeWhile` keeps it whole. -/
theorem takeWhile_map_toLower (l : List Char) (hl : l.all isNameChar = true) :
    (l.map Char.toLower).takeWhile isNameChar = l.map Char.toLower := by
  induction l with
  | nil => rfl
  | cons c l ih =>
    simp only [List.all_cons, Bool.and_eq_true] at hl
    simp [List.takeWhile_cons, isNameChar_toLower hl.1, ih hl.2]

/-- Maximality of `takeWhile`: any name-character prefix of a list is a
prefix of its `takeWhile`. -/
theorem prefix_takeWhile_of_all {p : Char → Bool} :
    ∀ (t l : List Char), t <+: l → t.all p = true → t <+: l.takeWhile p
  | [], _, _, _ => List.nil_prefix
  | a :: t, l, hpre, hall => by
    obtain ⟨rest, rfl⟩ := hpre
    simp only [List.all_cons, Bool.and_eq_true] at hall
    rw [List.cons_append, List.takeWhile_cons_of_pos hall.1]
    exact List.cons_prefix_cons.mpr
      ⟨rfl, prefix_takeWhile_of_all t (t ++ rest) (List.prefix_append t rest) hall.2⟩

/-- C8 counterexample: on an input with no name-character prefix the real
failure is `AttributeError` (`.group(0)` called on `None`), not the
`InvalidSpecifier` error named by the specification. -/
theorem c8_counterexample :
    just_name ">" = .error .attributeError ∧
    PyErr.attributeError ≠ PyErr.invalidSpecifier :=
  ⟨rfl, by decide⟩

/-- C8 amended: `just_name` maps every specifier to the lower-casing of its
longest prefix of characters in the class letters, digits, dot, underscore,
dash, and fails, with `AttributeError`, exactly when that prefix is empty.
The conjuncts: the two concrete examples of the claim; failure happens
exactly on an empty matched prefix; on a non-empty matched prefix the result
is the lower-cased prefix; and the matched prefix is maximal (any
name-character prefix of the input is a prefix of it). -/
theorem c8_amended :
    just_name "foo>=1.2,<2" = .ok "foo" ∧
    just_name "Foo_Bar" = .ok "foo_bar" ∧
    (∀ s : String, just_name s = .error .attributeError ↔
      s.data.takeWhile isNameChar = []) ∧
    (∀ s : String, s.data.takeWhile isNameChar ≠ [] →
      just_name s = .ok (String.mk ((s.data.takeWhile isNameChar).map Char.toLower))) ∧
    (∀ (s : String) (t : List Char), t <+: s.data → t.all isNameChar = true →
      t <+: s.data.takeWhile isNameChar) := by
  refine ⟨rfl, rfl, ?_, ?_, ?_⟩
  · intro s
    unfold just_name
    by_cases hm : (s.data.takeWhile isNameChar).isEmpty = true
    · simp [hm, List.isEmpty_iff.mp hm]
    · simp only [hm, Bool.false_eq_true, if_false]
      constructor
      · intro h; cases h
      · intro h; exact absurd (List.isEmpty_iff.mpr h) (by simp [hm])
  · intro s hne
    unfold just_name
    rw [if_neg (by simp [List.isEmpty_iff, hne])]
  · intro s t hpre hall
    exact prefix_takeWhile_of_all t s.data hpre hall

/-- Witness for the quantified conjuncts of `c8_amended`. -/
theorem c8_amended_witness :
    (just_name "" = .error .attributeError ↔ ("" : String).data.takeWhile isNameChar = []) ∧
    just_name "Ab-" =
      .ok (String.mk ((("Ab-" : String).data.takeWhile isNameChar).map Char.toLower)) ∧
    [ 'A' ] <+: ("Ab-" : String).data.takeWhile isNameChar :=
  ⟨c8_amended.2.2.1 "", c8_amended.2.2.2.1 "Ab-" (by decide),
    c8_amended.2.2.2.2 "Ab-" [ 'A' ] (by decide) (by decide)⟩

/-- Registry oracle used to refute C9: the URL for the raw name `Foo_Bar`
answers 404, every other URL answers a payload whose classifiers say
Python 3 only.  (PyPI is free to treat distinct name spellings
differently; the code sends the name as given.) -/
def fetchOracle : String → Nat × Option Response :=
  fun u =>
    if u == pypiUrl "Foo_Bar" then (404, none)
    else (200, some ⟨some ⟨some ["Programming Language :: Python :: 3 :: Only"]⟩, none⟩)

/-- C9 counterexample: `supports_py3` does not canonicalize its argument
before querying: under `fetchOracle` the raw name `Foo_Bar` takes the
optimistic 404 fallback while its canonical form `foo_bar` is classified
from the payload, so the two results differ. -/
theorem c9_counterexample :
    just_name "Foo_Bar" = .ok "foo_bar" ∧
    supports_py3 "Foo_Bar" fetchOracle =
      .ok (["problem fetching Foo_Bar, assuming ported (404)"], .python3_supported) ∧
    supports_py3 "foo_bar" fetchOracle = .ok ([], .python3_only) ∧
    CanIUsePython3.python3_supported ≠ CanIUsePython3.python3_only :=
  ⟨rfl, rfl, rfl, by decide⟩

/-- C9 amended: canonicalization by `just_name` is idempotent (applying it to
its own successful output returns that output unchanged), but `supports_py3`
queries and caches under the name exactly as given, so results for a raw and
a canonical spelling can differ (see the counterexample). -/
theorem c9_amended_idempotent (s t : String) (h : just_name s = .ok t) :
    just_name t = .ok t := by
  unfold just_name at h
  by_cases hm : (s.data.takeWhile isNameChar).isEmpty = true
  · rw [if_pos hm] at h; cases h
  · rw [if_neg (by simp [hm])] at h
    have ht : t = String.mk ((s.data.takeWhile isNameChar).map Char.toLower) :=
      (Except.ok.injEq .. ▸ h).symm
    have hall : (s.data.takeWhile isNameChar).all isNameChar = true := List.all_takeWhile
    have htw : ((s.data.takeWhile isNameChar).map Char.toLower).takeWhile isNameChar =
        (s.data.takeWhile isNameChar).map Char.toLower :=
      takeWhile_map_toLower _ hall
    have hne : (s.data.takeWhile isNameChar).map Char.toLower ≠ [] := by
      intro he
      exact absurd (List.isEmpty_iff.mpr (List.map_eq_nil_iff.mp he)) (by simp [hm])
    unfold just_name
    rw [ht]
    rw [show (String.mk ((s.data.takeWhile isNameChar).map Char.toLower)).data =
        (s.data.takeWhile isNameChar).map Char.toLower from rfl]
    rw [htw]
    rw [if_neg (by simp [List.isEmpty_iff, hne])]
    have hmap : ((s.data.takeWhile isNameChar).map Char.toLower).map Char.toLower =
        (s.data.takeWhile isNameChar).map Char.toLower := by
      rw [List.map_map]
      exact List.map_congr_left fun a _ => toLower_idem a
    rw [hmap]

/-- Witness for `c9_amended_idempotent`: applying `just_name` to the output
it produced for `Foo_Bar>=1` leaves the output unchanged. -/
theorem c9_amended_idempotent_witness : just_name "foo_bar" = .ok "foo_bar" :=
  c9_amended_idempotent "Foo_Bar>=1" "foo_bar" rfl

end Ciu
